import Mathlib

/-!
Verification of the win-hotkey library (hotkey descriptor parser/encoder,
single-threaded hotkey manager, cross-thread proxy).

Rust strings are modelled as `List Char`; the string operations used by the
source (`splitn`, `split`, `trim`, `trim_end_matches`, `to_uppercase`) are
given structurally recursive definitions with the same semantics, so that
all parsing functions evaluate by `decide`.  Machine integers (`u16`, `u32`)
are modelled as `Nat` with explicit `% 2 ^ w` where overflow matters.
-/

deriving instance DecidableEq for Except

namespace WinHotkey

abbrev Str := List Char

/-- Rust `char::is_whitespace` restricted to the ASCII whitespace that can
occur in hotkey strings. -/
def isWs (c : Char) : Bool :=
  c = ' ' ∨ c = '\t' ∨ c = '\n' ∨ c = '\r'

/-- Rust `str::trim`: remove leading and trailing whitespace. -/
def trim (s : Str) : Str :=
  ((s.dropWhile isWs).reverse.dropWhile isWs).reverse

/-- Rust `str::split(sep)`: split on every occurrence of `sep`; the empty
string yields one empty segment, like Rust. -/
def splitOnChar (sep : Char) : Str → List Str
  | [] => [[]]
  | c :: rest =>
    let r := splitOnChar sep rest
    if c = sep then
      [] :: r
    else
      match r with
      | [] => [[c]]
      | h :: t => (c :: h) :: t

/-- Rust `str::splitn(2, sep)`: the part before the first `sep`, and
(when `sep` occurs) the remainder after it. -/
def splitN2 (sep : Char) : Str → Str × Option Str
  | [] => ([], none)
  | c :: rest =>
    if c = sep then ([], some rest)
    else
      let (a, b) := splitN2 sep rest
      (c :: a, b)

/-- Rust `str::trim_end_matches('>')`: remove all trailing `>` characters. -/
def trimEndGt (s : Str) : Str :=
  (s.reverse.dropWhile (fun c => c = '>')).reverse

/-- ASCII uppercase of one character (agrees with Rust `to_uppercase` and
`to_ascii_uppercase` on the ASCII tokens the parser deals with). -/
def upChar (c : Char) : Char :=
  if 'a' ≤ c ∧ c ≤ 'z' then Char.ofNat (c.toNat - 32) else c

/-- Rust `str::to_uppercase` (ASCII fragment). -/
def asciiUpper (s : Str) : Str :=
  s.map upChar

/-- Bit values of the external `keyboard_types::Modifiers` bitflags
(`u32` flags). -/
def Modifiers.ALT : Nat := 0x01
def Modifiers.CONTROL : Nat := 0x08
def Modifiers.META : Nat := 0x40
def Modifiers.SHIFT : Nat := 0x200
def Modifiers.SUPER : Nat := 0x2000

/-- Union of all defined `Modifiers` flag bits: every value of the bitflags
type satisfies `m &&& MASK = m`. -/
def Modifiers.MASK : Nat := 0x3FFF

/-- `HotKeyParseError` from src/hotkey.rs (lines 35-43). -/
inductive HotKeyParseError where
  | UnsupportedKey (token : Str)
  | EmptyToken (original : Str)
  | InvalidFormat (original : Str)
deriving DecidableEq, Repr

inductive Code where
  | Backquote
  | Backslash
  | BracketLeft
  | BracketRight
  | Pause
  | Comma
  | Digit0
  | Digit1
  | Digit2
  | Digit3
  | Digit4
  | Digit5
  | Digit6
  | Digit7
  | Digit8
  | Digit9
  | Equal
  | KeyA
  | KeyB
  | KeyC
  | KeyD
  | KeyE
  | KeyF
  | KeyG
  | KeyH
  | KeyI
  | KeyJ
  | KeyK
  | KeyL
  | KeyM
  | KeyN
  | KeyO
  | KeyP
  | KeyQ
  | KeyR
  | KeyS
  | KeyT
  | KeyU
  | KeyV
  | KeyW
  | KeyX
  | KeyY
  | KeyZ
  | Minus
  | Period
  | Quote
  | Semicolon
  | Slash
  | Backspace
  | CapsLock
  | Enter
  | Space
  | Tab
  | Delete
  | End
  | Home
  | Insert
  | PageDown
  | PageUp
  | PrintScreen
  | ScrollLock
  | ArrowDown
  | ArrowLeft
  | ArrowRight
  | ArrowUp
  | NumLock
  | Numpad0
  | Numpad1
  | Numpad2
  | Numpad3
  | Numpad4
  | Numpad5
  | Numpad6
  | Numpad7
  | Numpad8
  | Numpad9
  | NumpadAdd
  | NumpadDecimal
  | NumpadDivide
  | NumpadEnter
  | NumpadEqual
  | NumpadMultiply
  | NumpadSubtract
  | Escape
  | F1
  | F2
  | F3
  | F4
  | F5
  | F6
  | F7
  | F8
  | F9
  | F10
  | F11
  | F12
  | AudioVolumeDown
  | AudioVolumeUp
  | AudioVolumeMute
  | MediaPlay
  | MediaPause
  | MediaPlayPause
  | MediaStop
  | MediaTrackNext
  | MediaTrackPrevious
  | F13
  | F14
  | F15
  | F16
  | F17
  | F18
  | F19
  | F20
  | F21
  | F22
  | F23
  | F24
deriving DecidableEq, Repr

/-- The numeric value of the `Code` enum cast (`key as u32`): models the
discriminant of the external `keyboard_types::Code` enum, which is injective
and below `2^16`. -/
def Code.val : Code → Nat
  | .Backquote => 0
  | .Backslash => 1
  | .BracketLeft => 2
  | .BracketRight => 3
  | .Pause => 4
  | .Comma => 5
  | .Digit0 => 6
  | .Digit1 => 7
  | .Digit2 => 8
  | .Digit3 => 9
  | .Digit4 => 10
  | .Digit5 => 11
  | .Digit6 => 12
  | .Digit7 => 13
  | .Digit8 => 14
  | .Digit9 => 15
  | .Equal => 16
  | .KeyA => 17
  | .KeyB => 18
  | .KeyC => 19
  | .KeyD => 20
  | .KeyE => 21
  | .KeyF => 22
  | .KeyG => 23
  | .KeyH => 24
  | .KeyI => 25
  | .KeyJ => 26
  | .KeyK => 27
  | .KeyL => 28
  | .KeyM => 29
  | .KeyN => 30
  | .KeyO => 31
  | .KeyP => 32
  | .KeyQ => 33
  | .KeyR => 34
  | .KeyS => 35
  | .KeyT => 36
  | .KeyU => 37
  | .KeyV => 38
  | .KeyW => 39
  | .KeyX => 40
  | .KeyY => 41
  | .KeyZ => 42
  | .Minus => 43
  | .Period => 44
  | .Quote => 45
  | .Semicolon => 46
  | .Slash => 47
  | .Backspace => 48
  | .CapsLock => 49
  | .Enter => 50
  | .Space => 51
  | .Tab => 52
  | .Delete => 53
  | .End => 54
  | .Home => 55
  | .Insert => 56
  | .PageDown => 57
  | .PageUp => 58
  | .PrintScreen => 59
  | .ScrollLock => 60
  | .ArrowDown => 61
  | .ArrowLeft => 62
  | .ArrowRight => 63
  | .ArrowUp => 64
  | .NumLock => 65
  | .Numpad0 => 66
  | .Numpad1 => 67
  | .Numpad2 => 68
  | .Numpad3 => 69
  | .Numpad4 => 70
  | .Numpad5 => 71
  | .Numpad6 => 72
  | .Numpad7 => 73
  | .Numpad8 => 74
  | .Numpad9 => 75
  | .NumpadAdd => 76
  | .NumpadDecimal => 77
  | .NumpadDivide => 78
  | .NumpadEnter => 79
  | .NumpadEqual => 80
  | .NumpadMultiply => 81
  | .NumpadSubtract => 82
  | .Escape => 83
  | .F1 => 84
  | .F2 => 85
  | .F3 => 86
  | .F4 => 87
  | .F5 => 88
  | .F6 => 89
  | .F7 => 90
  | .F8 => 91
  | .F9 => 92
  | .F10 => 93
  | .F11 => 94
  | .F12 => 95
  | .AudioVolumeDown => 96
  | .AudioVolumeUp => 97
  | .AudioVolumeMute => 98
  | .MediaPlay => 99
  | .MediaPause => 100
  | .MediaPlayPause => 101
  | .MediaStop => 102
  | .MediaTrackNext => 103
  | .MediaTrackPrevious => 104
  | .F13 => 105
  | .F14 => 106
  | .F15 => 107
  | .F16 => 108
  | .F17 => 109
  | .F18 => 110
  | .F19 => 111
  | .F20 => 112
  | .F21 => 113
  | .F22 => 114
  | .F23 => 115
  | .F24 => 116

/-- Partial inverse of `Code.val`, used to prove injectivity. -/
def Code.ofVal : Nat → Option Code
  | 0 => some .Backquote
  | 1 => some .Backslash
  | 2 => some .BracketLeft
  | 3 => some .BracketRight
  | 4 => some .Pause
  | 5 => some .Comma
  | 6 => some .Digit0
  | 7 => some .Digit1
  | 8 => some .Digit2
  | 9 => some .Digit3
  | 10 => some .Digit4
  | 11 => some .Digit5
  | 12 => some .Digit6
  | 13 => some .Digit7
  | 14 => some .Digit8
  | 15 => some .Digit9
  | 16 => some .Equal
  | 17 => some .KeyA
  | 18 => some .KeyB
  | 19 => some .KeyC
  | 20 => some .KeyD
  | 21 => some .KeyE
  | 22 => some .KeyF
  | 23 => some .KeyG
  | 24 => some .KeyH
  | 25 => some .KeyI
  | 26 => some .KeyJ
  | 27 => some .KeyK
  | 28 => some .KeyL
  | 29 => some .KeyM
  | 30 => some .KeyN
  | 31 => some .KeyO
  | 32 => some .KeyP
  | 33 => some .KeyQ
  | 34 => some .KeyR
  | 35 => some .KeyS
  | 36 => some .KeyT
  | 37 => some .KeyU
  | 38 => some .KeyV
  | 39 => some .KeyW
  | 40 => some .KeyX
  | 41 => some .KeyY
  | 42 => some .KeyZ
  | 43 => some .Minus
  | 44 => some .Period
  | 45 => some .Quote
  | 46 => some .Semicolon
  | 47 => some .Slash
  | 48 => some .Backspace
  | 49 => some .CapsLock
  | 50 => some .Enter
  | 51 => some .Space
  | 52 => some .Tab
  | 53 => some .Delete
  | 54 => some .End
  | 55 => some .Home
  | 56 => some .Insert
  | 57 => some .PageDown
  | 58 => some .PageUp
  | 59 => some .PrintScreen
  | 60 => some .ScrollLock
  | 61 => some .ArrowDown
  | 62 => some .ArrowLeft
  | 63 => some .ArrowRight
  | 64 => some .ArrowUp
  | 65 => some .NumLock
  | 66 => some .Numpad0
  | 67 => some .Numpad1
  | 68 => some .Numpad2
  | 69 => some .Numpad3
  | 70 => some .Numpad4
  | 71 => some .Numpad5
  | 72 => some .Numpad6
  | 73 => some .Numpad7
  | 74 => some .Numpad8
  | 75 => some .Numpad9
  | 76 => some .NumpadAdd
  | 77 => some .NumpadDecimal
  | 78 => some .NumpadDivide
  | 79 => some .NumpadEnter
  | 80 => some .NumpadEqual
  | 81 => some .NumpadMultiply
  | 82 => some .NumpadSubtract
  | 83 => some .Escape
  | 84 => some .F1
  | 85 => some .F2
  | 86 => some .F3
  | 87 => some .F4
  | 88 => some .F5
  | 89 => some .F6
  | 90 => some .F7
  | 91 => some .F8
  | 92 => some .F9
  | 93 => some .F10
  | 94 => some .F11
  | 95 => some .F12
  | 96 => some .AudioVolumeDown
  | 97 => some .AudioVolumeUp
  | 98 => some .AudioVolumeMute
  | 99 => some .MediaPlay
  | 100 => some .MediaPause
  | 101 => some .MediaPlayPause
  | 102 => some .MediaStop
  | 103 => some .MediaTrackNext
  | 104 => some .MediaTrackPrevious
  | 105 => some .F13
  | 106 => some .F14
  | 107 => some .F15
  | 108 => some .F16
  | 109 => some .F17
  | 110 => some .F18
  | 111 => some .F19
  | 112 => some .F20
  | 113 => some .F21
  | 114 => some .F22
  | 115 => some .F23
  | 116 => some .F24
  | _ => none

/-- The `Display` string of a `Code`: the external `keyboard_types::Code`
Display implementation prints the variant name verbatim. -/
def Code.display : Code → Str
  | .Backquote => "Backquote".data
  | .Backslash => "Backslash".data
  | .BracketLeft => "BracketLeft".data
  | .BracketRight => "BracketRight".data
  | .Pause => "Pause".data
  | .Comma => "Comma".data
  | .Digit0 => "Digit0".data
  | .Digit1 => "Digit1".data
  | .Digit2 => "Digit2".data
  | .Digit3 => "Digit3".data
  | .Digit4 => "Digit4".data
  | .Digit5 => "Digit5".data
  | .Digit6 => "Digit6".data
  | .Digit7 => "Digit7".data
  | .Digit8 => "Digit8".data
  | .Digit9 => "Digit9".data
  | .Equal => "Equal".data
  | .KeyA => "KeyA".data
  | .KeyB => "KeyB".data
  | .KeyC => "KeyC".data
  | .KeyD => "KeyD".data
  | .KeyE => "KeyE".data
  | .KeyF => "KeyF".data
  | .KeyG => "KeyG".data
  | .KeyH => "KeyH".data
  | .KeyI => "KeyI".data
  | .KeyJ => "KeyJ".data
  | .KeyK => "KeyK".data
  | .KeyL => "KeyL".data
  | .KeyM => "KeyM".data
  | .KeyN => "KeyN".data
  | .KeyO => "KeyO".data
  | .KeyP => "KeyP".data
  | .KeyQ => "KeyQ".data
  | .KeyR => "KeyR".data
  | .KeyS => "KeyS".data
  | .KeyT => "KeyT".data
  | .KeyU => "KeyU".data
  | .KeyV => "KeyV".data
  | .KeyW => "KeyW".data
  | .KeyX => "KeyX".data
  | .KeyY => "KeyY".data
  | .KeyZ => "KeyZ".data
  | .Minus => "Minus".data
  | .Period => "Period".data
  | .Quote => "Quote".data
  | .Semicolon => "Semicolon".data
  | .Slash => "Slash".data
  | .Backspace => "Backspace".data
  | .CapsLock => "CapsLock".data
  | .Enter => "Enter".data
  | .Space => "Space".data
  | .Tab => "Tab".data
  | .Delete => "Delete".data
  | .End => "End".data
  | .Home => "Home".data
  | .Insert => "Insert".data
  | .PageDown => "PageDown".data
  | .PageUp => "PageUp".data
  | .PrintScreen => "PrintScreen".data
  | .ScrollLock => "ScrollLock".data
  | .ArrowDown => "ArrowDown".data
  | .ArrowLeft => "ArrowLeft".data
  | .ArrowRight => "ArrowRight".data
  | .ArrowUp => "ArrowUp".data
  | .NumLock => "NumLock".data
  | .Numpad0 => "Numpad0".data
  | .Numpad1 => "Numpad1".data
  | .Numpad2 => "Numpad2".data
  | .Numpad3 => "Numpad3".data
  | .Numpad4 => "Numpad4".data
  | .Numpad5 => "Numpad5".data
  | .Numpad6 => "Numpad6".data
  | .Numpad7 => "Numpad7".data
  | .Numpad8 => "Numpad8".data
  | .Numpad9 => "Numpad9".data
  | .NumpadAdd => "NumpadAdd".data
  | .NumpadDecimal => "NumpadDecimal".data
  | .NumpadDivide => "NumpadDivide".data
  | .NumpadEnter => "NumpadEnter".data
  | .NumpadEqual => "NumpadEqual".data
  | .NumpadMultiply => "NumpadMultiply".data
  | .NumpadSubtract => "NumpadSubtract".data
  | .Escape => "Escape".data
  | .F1 => "F1".data
  | .F2 => "F2".data
  | .F3 => "F3".data
  | .F4 => "F4".data
  | .F5 => "F5".data
  | .F6 => "F6".data
  | .F7 => "F7".data
  | .F8 => "F8".data
  | .F9 => "F9".data
  | .F10 => "F10".data
  | .F11 => "F11".data
  | .F12 => "F12".data
  | .AudioVolumeDown => "AudioVolumeDown".data
  | .AudioVolumeUp => "AudioVolumeUp".data
  | .AudioVolumeMute => "AudioVolumeMute".data
  | .MediaPlay => "MediaPlay".data
  | .MediaPause => "MediaPause".data
  | .MediaPlayPause => "MediaPlayPause".data
  | .MediaStop => "MediaStop".data
  | .MediaTrackNext => "MediaTrackNext".data
  | .MediaTrackPrevious => "MediaTrackPrevious".data
  | .F13 => "F13".data
  | .F14 => "F14".data
  | .F15 => "F15".data
  | .F16 => "F16".data
  | .F17 => "F17".data
  | .F18 => "F18".data
  | .F19 => "F19".data
  | .F20 => "F20".data
  | .F21 => "F21".data
  | .F22 => "F22".data
  | .F23 => "F23".data
  | .F24 => "F24".data

/-- Key-name resolution, from `parse_key` in src/hotkey.rs (lines 238-361):
matches the uppercased token against the fixed alias table; unknown tokens
give `UnsupportedKey` carrying the original (non-uppercased) token. -/
def parse_key (key : Str) : Except HotKeyParseError Code :=
  let up := asciiUpper key
  if up = "BACKQUOTE".data ∨ up = "`".data then .ok .Backquote
  else if up = "BACKSLASH".data ∨ up = "\\".data then .ok .Backslash
  else if up = "BRACKETLEFT".data ∨ up = "[".data then .ok .BracketLeft
  else if up = "BRACKETRIGHT".data ∨ up = "]".data then .ok .BracketRight
  else if up = "PAUSE".data ∨ up = "PAUSEBREAK".data then .ok .Pause
  else if up = "COMMA".data ∨ up = ",".data then .ok .Comma
  else if up = "DIGIT0".data ∨ up = "0".data then .ok .Digit0
  else if up = "DIGIT1".data ∨ up = "1".data then .ok .Digit1
  else if up = "DIGIT2".data ∨ up = "2".data then .ok .Digit2
  else if up = "DIGIT3".data ∨ up = "3".data then .ok .Digit3
  else if up = "DIGIT4".data ∨ up = "4".data then .ok .Digit4
  else if up = "DIGIT5".data ∨ up = "5".data then .ok .Digit5
  else if up = "DIGIT6".data ∨ up = "6".data then .ok .Digit6
  else if up = "DIGIT7".data ∨ up = "7".data then .ok .Digit7
  else if up = "DIGIT8".data ∨ up = "8".data then .ok .Digit8
  else if up = "DIGIT9".data ∨ up = "9".data then .ok .Digit9
  else if up = "EQUAL".data ∨ up = "=".data then .ok .Equal
  else if up = "KEYA".data ∨ up = "A".data then .ok .KeyA
  else if up = "KEYB".data ∨ up = "B".data then .ok .KeyB
  else if up = "KEYC".data ∨ up = "C".data then .ok .KeyC
  else if up = "KEYD".data ∨ up = "D".data then .ok .KeyD
  else if up = "KEYE".data ∨ up = "E".data then .ok .KeyE
  else if up = "KEYF".data ∨ up = "F".data then .ok .KeyF
  else if up = "KEYG".data ∨ up = "G".data then .ok .KeyG
  else if up = "KEYH".data ∨ up = "H".data then .ok .KeyH
  else if up = "KEYI".data ∨ up = "I".data then .ok .KeyI
  else if up = "KEYJ".data ∨ up = "J".data then .ok .KeyJ
  else if up = "KEYK".data ∨ up = "K".data then .ok .KeyK
  else if up = "KEYL".data ∨ up = "L".data then .ok .KeyL
  else if up = "KEYM".data ∨ up = "M".data then .ok .KeyM
  else if up = "KEYN".data ∨ up = "N".data then .ok .KeyN
  else if up = "KEYO".data ∨ up = "O".data then .ok .KeyO
  else if up = "KEYP".data ∨ up = "P".data then .ok .KeyP
  else if up = "KEYQ".data ∨ up = "Q".data then .ok .KeyQ
  else if up = "KEYR".data ∨ up = "R".data then .ok .KeyR
  else if up = "KEYS".data ∨ up = "S".data then .ok .KeyS
  else if up = "KEYT".data ∨ up = "T".data then .ok .KeyT
  else if up = "KEYU".data ∨ up = "U".data then .ok .KeyU
  else if up = "KEYV".data ∨ up = "V".data then .ok .KeyV
  else if up = "KEYW".data ∨ up = "W".data then .ok .KeyW
  else if up = "KEYX".data ∨ up = "X".data then .ok .KeyX
  else if up = "KEYY".data ∨ up = "Y".data then .ok .KeyY
  else if up = "KEYZ".data ∨ up = "Z".data then .ok .KeyZ
  else if up = "MINUS".data ∨ up = "-".data then .ok .Minus
  else if up = "PERIOD".data ∨ up = ".".data then .ok .Period
  else if up = "QUOTE".data ∨ up = [Char.ofNat 39] then .ok .Quote
  else if up = "SEMICOLON".data ∨ up = ";".data then .ok .Semicolon
  else if up = "SLASH".data ∨ up = "/".data then .ok .Slash
  else if up = "BACKSPACE".data then .ok .Backspace
  else if up = "CAPSLOCK".data then .ok .CapsLock
  else if up = "ENTER".data then .ok .Enter
  else if up = "SPACE".data then .ok .Space
  else if up = "TAB".data then .ok .Tab
  else if up = "DELETE".data then .ok .Delete
  else if up = "END".data then .ok .End
  else if up = "HOME".data then .ok .Home
  else if up = "INSERT".data then .ok .Insert
  else if up = "PAGEDOWN".data then .ok .PageDown
  else if up = "PAGEUP".data then .ok .PageUp
  else if up = "PRINTSCREEN".data then .ok .PrintScreen
  else if up = "SCROLLLOCK".data then .ok .ScrollLock
  else if up = "ARROWDOWN".data ∨ up = "DOWN".data then .ok .ArrowDown
  else if up = "ARROWLEFT".data ∨ up = "LEFT".data then .ok .ArrowLeft
  else if up = "ARROWRIGHT".data ∨ up = "RIGHT".data then .ok .ArrowRight
  else if up = "ARROWUP".data ∨ up = "UP".data then .ok .ArrowUp
  else if up = "NUMLOCK".data then .ok .NumLock
  else if up = "NUMPAD0".data ∨ up = "NUM0".data then .ok .Numpad0
  else if up = "NUMPAD1".data ∨ up = "NUM1".data then .ok .Numpad1
  else if up = "NUMPAD2".data ∨ up = "NUM2".data then .ok .Numpad2
  else if up = "NUMPAD3".data ∨ up = "NUM3".data then .ok .Numpad3
  else if up = "NUMPAD4".data ∨ up = "NUM4".data then .ok .Numpad4
  else if up = "NUMPAD5".data ∨ up = "NUM5".data then .ok .Numpad5
  else if up = "NUMPAD6".data ∨ up = "NUM6".data then .ok .Numpad6
  else if up = "NUMPAD7".data ∨ up = "NUM7".data then .ok .Numpad7
  else if up = "NUMPAD8".data ∨ up = "NUM8".data then .ok .Numpad8
  else if up = "NUMPAD9".data ∨ up = "NUM9".data then .ok .Numpad9
  else if up = "NUMPADADD".data ∨ up = "NUMADD".data ∨ up = "NUMPADPLUS".data ∨ up = "NUMPLUS".data then .ok .NumpadAdd
  else if up = "NUMPADDECIMAL".data ∨ up = "NUMDECIMAL".data then .ok .NumpadDecimal
  else if up = "NUMPADDIVIDE".data ∨ up = "NUMDIVIDE".data then .ok .NumpadDivide
  else if up = "NUMPADENTER".data ∨ up = "NUMENTER".data then .ok .NumpadEnter
  else if up = "NUMPADEQUAL".data ∨ up = "NUMEQUAL".data then .ok .NumpadEqual
  else if up = "NUMPADMULTIPLY".data ∨ up = "NUMMULTIPLY".data then .ok .NumpadMultiply
  else if up = "NUMPADSUBTRACT".data ∨ up = "NUMSUBTRACT".data then .ok .NumpadSubtract
  else if up = "ESCAPE".data ∨ up = "ESC".data then .ok .Escape
  else if up = "F1".data then .ok .F1
  else if up = "F2".data then .ok .F2
  else if up = "F3".data then .ok .F3
  else if up = "F4".data then .ok .F4
  else if up = "F5".data then .ok .F5
  else if up = "F6".data then .ok .F6
  else if up = "F7".data then .ok .F7
  else if up = "F8".data then .ok .F8
  else if up = "F9".data then .ok .F9
  else if up = "F10".data then .ok .F10
  else if up = "F11".data then .ok .F11
  else if up = "F12".data then .ok .F12
  else if up = "AUDIOVOLUMEDOWN".data ∨ up = "VOLUMEDOWN".data then .ok .AudioVolumeDown
  else if up = "AUDIOVOLUMEUP".data ∨ up = "VOLUMEUP".data then .ok .AudioVolumeUp
  else if up = "AUDIOVOLUMEMUTE".data ∨ up = "VOLUMEMUTE".data then .ok .AudioVolumeMute
  else if up = "MEDIAPLAY".data then .ok .MediaPlay
  else if up = "MEDIAPAUSE".data then .ok .MediaPause
  else if up = "MEDIAPLAYPAUSE".data then .ok .MediaPlayPause
  else if up = "MEDIASTOP".data then .ok .MediaStop
  else if up = "MEDIATRACKNEXT".data then .ok .MediaTrackNext
  else if up = "MEDIATRACKPREV".data ∨ up = "MEDIATRACKPREVIOUS".data then .ok .MediaTrackPrevious
  else if up = "F13".data then .ok .F13
  else if up = "F14".data then .ok .F14
  else if up = "F15".data then .ok .F15
  else if up = "F16".data then .ok .F16
  else if up = "F17".data then .ok .F17
  else if up = "F18".data then .ok .F18
  else if up = "F19".data then .ok .F19
  else if up = "F20".data then .ok .F20
  else if up = "F21".data then .ok .F21
  else if up = "F22".data then .ok .F22
  else if up = "F23".data then .ok .F23
  else if up = "F24".data then .ok .F24
  else .error (.UnsupportedKey key)

/-- The `HotKey` struct from src/hotkey.rs (lines 48-58): modifier bits,
primary key, derived numeric id and optional name. -/
structure HotKey where
  mods : Nat
  key : Code
  id : Nat
  name : Option Str
deriving DecidableEq, Repr

/-- The META-normalization step of `HotKey::new` (src/hotkey.rs lines 87-91):
when the set contains `META`, remove it and insert `SUPER` (bitflags
`contains` is `bits & other == other`, `remove` is `bits &= !other.bits`
on `u32`). -/
def normMeta (m : Nat) : Nat :=
  if m &&& Modifiers.META = Modifiers.META then
    (m &&& (0xFFFFFFFF ^^^ Modifiers.META)) ||| Modifiers.SUPER
  else m

/-- `HotKey::new` from src/hotkey.rs (lines 86-99): defaults absent modifiers
to the empty set, normalizes `META` to `SUPER` (see `normMeta`), and derives
`id = mods.bits() << 16 | key as u32` (u32 arithmetic, hence `% 2 ^ 32`). -/
def HotKey.new (mods : Option Nat) (key : Code) (name : Option Str) : HotKey :=
  let m := normMeta (mods.getD 0)
  { mods := m
    key := key
    id := ((m <<< 16) % 2 ^ 32) ||| key.val
    name := name }

/-- State of the token loop in `parse_hotkey`: the modifier set accumulated
so far and the primary key, if already found. -/
structure ParseSt where
  mods : Nat
  key : Option Code
deriving DecidableEq, Repr

/-- One iteration of the token loop of `parse_hotkey` (src/hotkey.rs lines
193-222): trims the token, reports blank tokens, rejects any token after the
primary key, recognizes the modifier aliases, and otherwise resolves the
token as the primary key. -/
def parseLoopStep (hotkeyPart : Str) (st : ParseSt) (raw : Str) :
    Except HotKeyParseError ParseSt :=
  let token := trim raw
  if token = [] then .error (.EmptyToken hotkeyPart)
  else if st.key.isSome then .error (.InvalidFormat hotkeyPart)
  else
    let up := asciiUpper token
    if up = "OPTION".data ∨ up = "ALT".data then
      .ok { st with mods := st.mods ||| Modifiers.ALT }
    else if up = "CONTROL".data ∨ up = "CTRL".data then
      .ok { st with mods := st.mods ||| Modifiers.CONTROL }
    else if up = "COMMAND".data ∨ up = "CMD".data ∨ up = "SUPER".data then
      .ok { st with mods := st.mods ||| Modifiers.SUPER }
    else if up = "SHIFT".data then
      .ok { st with mods := st.mods ||| Modifiers.SHIFT }
    else do
      let k ← parse_key token
      .ok { st with key := some k }

/-- Token processing of `parse_hotkey` (src/hotkey.rs lines 186-235): a
single token is resolved directly by `parse_key`; otherwise the token loop
runs; a missing primary key is `InvalidFormat`; the result is built by
`HotKey::new` with the name (`None` when blank). -/
def parseTokens (namePart hotkeyPart : Str) (tokens : List Str) :
    Except HotKeyParseError HotKey := do
  let st ←
    match tokens with
    | [t] => do
      let k ← parse_key t
      pure (⟨0, some k⟩ : ParseSt)
    | _ => tokens.foldlM (parseLoopStep hotkeyPart) (⟨0, none⟩ : ParseSt)
  match st.key with
  | none => .error (.InvalidFormat hotkeyPart)
  | some k =>
    pure (HotKey.new (some st.mods) k
      (if namePart = [] then none else some namePart))

/-- `parse_hotkey` from src/hotkey.rs (lines 172-236): splits the input at
the first `<` into a name part and a hotkey part (trailing `>` stripped),
splits the hotkey part on `+`, and processes the tokens (`parseTokens`). -/
def parse_hotkey (s : Str) : Except HotKeyParseError HotKey :=
  let parts := splitN2 '<' s
  let namePart := trim parts.1
  let hotkeyPart := trimEndGt (parts.2.getD [])
  let tokens := splitOnChar '+' hotkeyPart
  parseTokens namePart hotkeyPart tokens

/-- The uppercased token strings that the token loop of `parse_hotkey`
recognizes as modifiers (src/hotkey.rs lines 205-217).  Note that `WIN` and
`WINDOWS` are not among them. -/
def isModAliasU (up : Str) : Prop :=
  up = "OPTION".data ∨ up = "ALT".data ∨ up = "CONTROL".data ∨ up = "CTRL".data
    ∨ up = "COMMAND".data ∨ up = "CMD".data ∨ up = "SUPER".data
    ∨ up = "SHIFT".data

instance (up : Str) : Decidable (isModAliasU up) := by
  unfold isModAliasU
  infer_instance

/-- `HotKey::into_string` from src/hotkey.rs (lines 121-137): modifiers in
the fixed order shift, control, alt, super, then the key's Display name,
joined by `+`. -/
def HotKey.into_string (hk : HotKey) : Str :=
  (if hk.mods &&& Modifiers.SHIFT = Modifiers.SHIFT then "shift+".data else [])
    ++ (if hk.mods &&& Modifiers.CONTROL = Modifiers.CONTROL then "control+".data else [])
    ++ (if hk.mods &&& Modifiers.ALT = Modifiers.ALT then "alt+".data else [])
    ++ (if hk.mods &&& Modifiers.SUPER = Modifiers.SUPER then "super+".data else [])
    ++ hk.key.display

/-- `ModifiersKey` from src/keys/modifiers.rs (lines 10-19). -/
inductive ModifiersKey where
  | Alt
  | Ctrl
  | Shift
  | Win
  | NoRepeat
  | Non
deriving DecidableEq, Repr

/-- `ModifiersKey::to_mod_code` from src/keys/modifiers.rs (lines 54-65),
with the `windows_sys` constants `MOD_ALT = 1`, `MOD_CONTROL = 2`,
`MOD_SHIFT = 4`, `MOD_WIN = 8`, `MOD_NOREPEAT = 0x4000`. -/
def ModifiersKey.to_mod_code : ModifiersKey → Nat
  | .Alt => 0x1
  | .Ctrl => 0x2
  | .Shift => 0x4
  | .Win => 0x8
  | .NoRepeat => 0x4000
  | .Non => 0

/-- `ModifiersKey::combine` from src/keys/modifiers.rs (lines 69-75):
bitwise OR of the modifier codes, `Non` (0) for an absent list. -/
def ModifiersKey.combine (keys : Option (List ModifiersKey)) : Nat :=
  match keys with
  | some keys => keys.foldl (fun a b => a ||| b.to_mod_code) 0
  | none => ModifiersKey.Non.to_mod_code

/-- `HotkeyError` from src/error.rs (lines 8-14); `VirtualKey` values are
represented by their `to_vk_code` (`VirtualKey` equality and hashing go
through `to_vk_code`, src/keys/vk.rs lines 812-824). -/
inductive HotkeyError where
  | InvalidKey (s : Str)
  | InvalidKeyChar (c : Char)
  | NotAModkey (vk : Nat)
  | RegistrationFailed
  | UnregistrationFailed
deriving DecidableEq, Repr

/-- `HotkeyCallback` from src/lib.rs (lines 39-45): the callback is modelled
by the value it returns; extra keys are virtual-key codes. -/
structure HotkeyCallbackM (T : Type) where
  callback : Option T
  extraKeys : Option (List Nat)
deriving DecidableEq, Repr

/-- `HotkeyManager` state from src/single_thread.rs (lines 45-51): window
handle (`0` = null), id counter (`u16`), registry, no-repeat default.  The
`HashMap` registry is modelled as an association list with unique keys. -/
structure STManager (T : Type) where
  hwnd : Nat
  nextId : Nat
  handlers : List (Nat × HotkeyCallbackM T)
  noRepeat : Bool
deriving DecidableEq, Repr

/-- `HashMap::insert`: replace any existing binding of the key. -/
def assocInsert {T : Type} (k : Nat) (v : HotkeyCallbackM T)
    (l : List (Nat × HotkeyCallbackM T)) : List (Nat × HotkeyCallbackM T) :=
  (k, v) :: l.eraseP (fun p => p.1 = k)

/-- `HashMap::remove`. -/
def assocErase {T : Type} (k : Nat) (l : List (Nat × HotkeyCallbackM T)) :
    List (Nat × HotkeyCallbackM T) :=
  l.eraseP (fun p => p.1 = k)

/-- `create_hidden_window` from src/single_thread.rs (lines 215-244): the
outcome of `CreateWindowExA` is the externally supplied handle (`0` for
null); a null handle is an error. -/
def create_hidden_window (createdHwnd : Nat) : Except Unit Nat :=
  if createdHwnd = 0 then .error () else .ok createdHwnd

/-- `HotkeyManager::new` from src/single_thread.rs (lines 78-87):
`create_hidden_window().unwrap_or(DropHWND(null))` — a window-creation
failure is absorbed into a null handle, never surfaced. -/
def STManager.new (T : Type) (createdHwnd : Nat) : STManager T :=
  { hwnd :=
      match create_hidden_window createdHwnd with
      | .ok h => h
      | .error _ => 0
    nextId := 0
    handlers := []
    noRepeat := true }

/-- `HotkeyManager::set_no_repeat` from src/single_thread.rs (lines 72-74). -/
def STManager.set_no_repeat {T : Type} (m : STManager T) (b : Bool) :
    STManager T :=
  { m with noRepeat := b }

/-- The modifier bits passed to `RegisterHotKey` by
`HotkeyManager::register_extrakeys` (src/single_thread.rs lines 99-102):
`combine` of the list, then OR of the no-repeat bit when the manager's
`no_repeat` flag is set. -/
def registerModifierBits (noRepeat : Bool) (modifiersKey : Option (List ModifiersKey)) : Nat :=
  let modifiers := ModifiersKey.combine modifiersKey
  if noRepeat then modifiers ||| ModifiersKey.NoRepeat.to_mod_code else modifiers

/-- Result of one `register_extrakeys` call: the updated manager, the
returned value, and the modifier bits that were passed to the platform
`RegisterHotKey` primitive. -/
structure RegisterOutcome (T : Type) where
  manager : STManager T
  result : Except HotkeyError Nat
  platformBits : Nat
deriving DecidableEq, Repr

/-- `HotkeyManager::register_extrakeys` from src/single_thread.rs (lines
89-128).  `regOk` is the verdict of the external `RegisterHotKey` call
(`false` = the platform reported failure).  The id counter is `u16` and is
advanced before the platform call, success or failure. -/
def STManager.register_extrakeys {T : Type} (m : STManager T) (regOk : Bool)
    (virtualKey : Nat) (modifiersKey : Option (List ModifiersKey))
    (extraKeys : Option (List Nat)) (callback : Option T) : RegisterOutcome T :=
  let registerId := m.nextId
  let m := { m with nextId := (m.nextId + 1) % 2 ^ 16 }
  let modifiers := registerModifierBits m.noRepeat modifiersKey
  let _ := virtualKey
  if regOk = false then
    { manager := m, result := .error .RegistrationFailed, platformBits := modifiers }
  else
    { manager :=
        { m with handlers := assocInsert registerId ⟨callback, extraKeys⟩ m.handlers }
      result := .ok registerId
      platformBits := modifiers }

/-- `HotkeyManager::unregister` from src/single_thread.rs (lines 139-149).
`unregOk` is the verdict of the external `UnregisterHotKey` call. -/
def STManager.unregister {T : Type} (m : STManager T) (unregOk : Bool)
    (id : Nat) : STManager T × Except HotkeyError Unit :=
  if unregOk = false then (m, .error .UnregistrationFailed)
  else ({ m with handlers := assocErase id m.handlers }, .ok ())

/-- A message delivered by `GetMessageW` (filtered to the `WM_NULL` ..
`WM_HOTKEY` range): a hotkey-fire message carrying its `wParam`, the
`WM_NULL` wakeup, or any other message in the range. -/
inductive WinMsg where
  | hotkey (wParam : Nat)
  | null
  | other
deriving DecidableEq, Repr

/-- `HotkeyManager::handle_hotkey` from src/single_thread.rs (lines
160-196), with the pending message queue modelled as a list (`none` means
the call is still blocked waiting for messages) and the instantaneous
`get_global_keystate` query (src/lib.rs lines 189-197) as an oracle from
virtual-key code to pressed state. -/
def STManager.handle_hotkey {T : Type} (m : STManager T)
    (keystate : Nat → Bool) : List WinMsg → Option (Option T)
  | [] => none
  | msg :: rest =>
    match msg with
    | .hotkey wParam =>
      let hkId := wParam % 2 ^ 16
      match m.handlers.lookup hkId with
      | some handler =>
        match handler.extraKeys with
        | some keys =>
          if !(keys.any fun vk => !keystate vk) then
            match handler.callback with
            | some cb => some (some cb)
            | none => m.handle_hotkey keystate rest
          else
            m.handle_hotkey keystate rest
        | none =>
          match handler.callback with
          | some cb => some (some cb)
          | none => m.handle_hotkey keystate rest
      | none => m.handle_hotkey keystate rest
    | .null => some none
    | .other => m.handle_hotkey keystate rest

/-- `TSHotkeyManagerBackend::new` from src/thread_safe.rs (lines 60-68):
the worker thread owns a fresh single-threaded manager with its own
no-repeat handling disabled. -/
def tsBackendNew (T : Type) (createdHwnd : Nat) : STManager T :=
  (STManager.new T createdHwnd).set_no_repeat false

/-- The modifier-list rewriting done by the cross-thread proxy's
`register_extrakeys` (src/thread_safe.rs lines 135-141): when the proxy's
`no_repeat` flag is set, a `NoRepeat` pseudo-modifier is appended to the
list (an absent list becomes a fresh one). -/
def tsPushNoRepeat (noRepeat : Bool) (modifiersKey : Option (List ModifiersKey)) :
    Option (List ModifiersKey) :=
  if noRepeat then some ((modifiersKey.getD []) ++ [ModifiersKey.NoRepeat])
  else modifiersKey

/-- `crate::Error`, reconstructed from its uses in src/manager.rs. -/
inductive WinError where
  | AlreadyRegistered (hk : HotKey)
  | FailedToRegister (msg : Str)
  | FailedToUnRegister (hk : HotKey)
  | OsError
deriving DecidableEq, Repr

/-- `WinHotKeyManager` from src/manager.rs (lines 35-37). -/
structure WinHotKeyManager where
  hwnd : Nat
deriving DecidableEq, Repr

/-- `WinHotKeyManager::new` from src/manager.rs (lines 46-90): when
`CreateWindowExW` yields a null handle the constructor returns
`Err(Error::OsError(..))`; otherwise the manager owns the window. -/
def WinHotKeyManager.new (createdHwnd : Nat) : Except WinError WinHotKeyManager :=
  if createdHwnd = 0 then .error .OsError
  else .ok { hwnd := createdHwnd }

theorem Code.ofVal_val (c : Code) : Code.ofVal c.val = some c := by
  cases c <;> rfl

theorem Code.val_injective {c₁ c₂ : Code} (h : c₁.val = c₂.val) : c₁ = c₂ := by
  have h2 := Code.ofVal_val c₁
  rw [h, Code.ofVal_val c₂] at h2
  exact (Option.some.injEq _ _ ▸ h2).symm

theorem Code.val_lt (c : Code) : c.val < 2 ^ 16 := by
  cases c <;> decide

theorem lorShift_shiftRight (a b : Nat) (hb : b < 2 ^ 16) :
    ((a <<< 16) ||| b) >>> 16 = a := by
  apply Nat.eq_of_testBit_eq
  intro i
  have hb' : b.testBit (16 + i) = false :=
    Nat.testBit_lt_two_pow
      (lt_of_lt_of_le hb (Nat.pow_le_pow_right (by norm_num) (by omega)))
  have h16 : 16 + i - 16 = i := by omega
  simp [Nat.testBit_shiftRight, Nat.testBit_or, Nat.testBit_shiftLeft, hb', h16]

theorem lorShift_land (a b : Nat) (hb : b < 2 ^ 16) :
    ((a <<< 16) ||| b) &&& (2 ^ 16 - 1) = b := by
  apply Nat.eq_of_testBit_eq
  intro i
  simp only [Nat.testBit_and, Nat.testBit_or, Nat.testBit_shiftLeft,
    Nat.testBit_two_pow_sub_one]
  by_cases h : i < 16
  · simp [h, show ¬(16 ≤ i) by omega]
  · have hbi : b.testBit i = false :=
      Nat.testBit_lt_two_pow
        (lt_of_lt_of_le hb (Nat.pow_le_pow_right (by norm_num) (by omega)))
    simp [h, hbi]

theorem normMeta_lt {m : Nat} (hm : m < 2 ^ 14) : normMeta m < 2 ^ 14 := by
  unfold normMeta
  split
  · exact Nat.or_lt_two_pow
      (lt_of_le_of_lt (Nat.and_le_left) hm) (by decide)
  · exact hm

theorem hotKey_new_mods (m : Nat) (k : Code) (n : Option Str) :
    (HotKey.new (some m) k n).mods = normMeta m := rfl

theorem hotKey_new_id_eq {m : Nat} (hm : m < 2 ^ 14) (k : Code) (n : Option Str) :
    (HotKey.new (some m) k n).id = ((normMeta m) <<< 16) ||| k.val := by
  have hlt : (normMeta m) <<< 16 < 2 ^ 32 := by
    rw [Nat.shiftLeft_eq]
    calc normMeta m * 2 ^ 16 < 2 ^ 14 * 2 ^ 16 :=
          (Nat.mul_lt_mul_right (by norm_num)).mpr (normMeta_lt hm)
      _ ≤ 2 ^ 32 := by norm_num
  show (((normMeta m) <<< 16) % 2 ^ 32) ||| k.val = _
  rw [Nat.mod_eq_of_lt hlt]

/-- C1: for every descriptor constructed by `HotKey::new`, the numeric id is
bit-exactly `(modifierBits << 16) | keyCode` (where the modifier bits are the
descriptor's stored — META-normalized — modifier set); the id does not depend
on anything but the (modifiers, key) pair (determinism), and two constructed
descriptors have equal ids exactly when their stored (modifiers, key) pairs
are equal (injectivity).  The hypotheses `m < 2 ^ 14` state that the inputs
are valid `keyboard_types::Modifiers` values (all defined flag bits lie
below bit 14). -/
theorem hotkey_id_bit_exact_deterministic_injective
    (m m₁ m₂ : Nat) (k k₁ k₂ : Code) (n n' n₁ n₂ : Option Str)
    (hm : m < 2 ^ 14) (hm₁ : m₁ < 2 ^ 14) (hm₂ : m₂ < 2 ^ 14) :
    (HotKey.new (some m) k n).id
        = ((HotKey.new (some m) k n).mods <<< 16) ||| k.val
    ∧ (HotKey.new (some m) k n).id = (HotKey.new (some m) k n').id
    ∧ ((HotKey.new (some m₁) k₁ n₁).id = (HotKey.new (some m₂) k₂ n₂).id
        ↔ (HotKey.new (some m₁) k₁ n₁).mods = (HotKey.new (some m₂) k₂ n₂).mods
          ∧ (HotKey.new (some m₁) k₁ n₁).key = (HotKey.new (some m₂) k₂ n₂).key) := by
  refine ⟨?_, rfl, ?_⟩
  · rw [hotKey_new_id_eq hm, hotKey_new_mods]
  · rw [hotKey_new_id_eq hm₁, hotKey_new_id_eq hm₂, hotKey_new_mods,
      hotKey_new_mods]
    constructor
    · intro h
      have hhigh := congrArg (fun x => x >>> 16) h
      simp only [lorShift_shiftRight _ _ (Code.val_lt k₁),
        lorShift_shiftRight _ _ (Code.val_lt k₂)] at hhigh
      have hlow := congrArg (fun x => x &&& (2 ^ 16 - 1)) h
      simp only [lorShift_land _ _ (Code.val_lt k₁),
        lorShift_land _ _ (Code.val_lt k₂)] at hlow
      exact ⟨hhigh, Code.val_injective hlow⟩
    · intro ⟨h1, h2⟩
      have hk : k₁ = k₂ := h2
      rw [h1, hk]

/-- C1 witness: the theorem applied at concrete inputs. -/
theorem hotkey_id_bit_exact_deterministic_injective_witness :
    (HotKey.new (some Modifiers.SHIFT) .KeyQ none).id
        = ((HotKey.new (some Modifiers.SHIFT) .KeyQ none).mods <<< 16)
            ||| Code.val .KeyQ
    ∧ ((HotKey.new (some Modifiers.SHIFT) .KeyA none).id
        = (HotKey.new (some Modifiers.CONTROL) .KeyB none).id
        ↔ (HotKey.new (some Modifiers.SHIFT) .KeyA none).mods
            = (HotKey.new (some Modifiers.CONTROL) .KeyB none).mods
          ∧ (HotKey.new (some Modifiers.SHIFT) .KeyA none).key
            = (HotKey.new (some Modifiers.CONTROL) .KeyB none).key) := by
  have h := hotkey_id_bit_exact_deterministic_injective
    Modifiers.SHIFT Modifiers.SHIFT Modifiers.CONTROL .KeyQ .KeyA .KeyB
    none none none none (by decide) (by decide) (by decide)
  exact ⟨h.1, h.2.2⟩

theorem testBit_six_eq_false {m : Nat} (h : m &&& Modifiers.META = 0) :
    m.testBit 6 = false := by
  have h' := congrArg (fun x => Nat.testBit x 6) h
  simp only [Nat.testBit_and] at h'
  rw [show Nat.testBit Modifiers.META 6 = true from by decide] at h'
  simpa using h'

theorem normMeta_or_meta_eq_or_super {m : Nat} (hm : m < 2 ^ 14)
    (h : m &&& Modifiers.META = 0) :
    normMeta (m ||| Modifiers.META) = normMeta (m ||| Modifiers.SUPER) := by
  have hm6 := testBit_six_eq_false h
  have hmeta : (Modifiers.META : Nat) = 2 ^ 6 := by norm_num [Modifiers.META]
  have hsuper : (Modifiers.SUPER : Nat) = 2 ^ 13 := by norm_num [Modifiers.SUPER]
  have hcontains : (m ||| Modifiers.META) &&& Modifiers.META = Modifiers.META := by
    apply Nat.eq_of_testBit_eq
    intro i
    simp only [Nat.testBit_and, Nat.testBit_or]
    cases hb : Nat.testBit Modifiers.META i <;> simp
  have hnot : (m ||| Modifiers.SUPER) &&& Modifiers.META = 0 := by
    apply Nat.eq_of_testBit_eq
    intro i
    simp only [Nat.testBit_and, Nat.testBit_or, Nat.zero_testBit]
    by_cases hi : i = 6
    · subst hi
      rw [hm6]
      decide
    · rw [hmeta, Nat.testBit_two_pow]
      simp [Ne.symm hi]
  rw [normMeta, normMeta, if_pos hcontains, if_neg (by rw [hnot]; decide)]
  apply Nat.eq_of_testBit_eq
  intro i
  simp only [Nat.testBit_or, Nat.testBit_and, Nat.testBit_xor,
    show (0xFFFFFFFF : Nat) = 2 ^ 32 - 1 from by norm_num,
    Nat.testBit_two_pow_sub_one, hmeta, hsuper, Nat.testBit_two_pow]
  by_cases hi : i = 6
  · subst hi
    simp [hm6]
  · by_cases hi32 : i < 32
    · simp [Ne.symm hi, hi32]
    · have hmi : m.testBit i = false :=
        Nat.testBit_lt_two_pow
          (lt_of_lt_of_le hm (Nat.pow_le_pow_right (by norm_num) (by omega)))
      have h13 : ¬(13 = i) := by omega
      simp [Ne.symm hi, hi32, hmi, h13]

/-- C9: a modifier set containing META is normalized by `HotKey::new`: META
is removed and SUPER inserted, the id is derived from the normalized set,
and descriptors built with META resp. SUPER (all else equal) are equal.
The hypothesis `m < 2 ^ 14` states validity of the `Modifiers` bits. -/
theorem hotkey_new_meta_to_super (m : Nat) (k : Code) (n : Option Str)
    (hm : m < 2 ^ 14) :
    (m &&& Modifiers.META = Modifiers.META →
      (HotKey.new (some m) k n).mods
        = (m &&& (0xFFFFFFFF ^^^ Modifiers.META)) ||| Modifiers.SUPER)
    ∧ (HotKey.new (some m) k n).id
        = (((HotKey.new (some m) k n).mods <<< 16) % 2 ^ 32) ||| k.val
    ∧ (m &&& Modifiers.META = 0 →
        HotKey.new (some (m ||| Modifiers.META)) k n
          = HotKey.new (some (m ||| Modifiers.SUPER)) k n) := by
  refine ⟨fun h => ?_, rfl, fun h => ?_⟩
  · rw [hotKey_new_mods, normMeta, if_pos h]
  · have hnm := normMeta_or_meta_eq_or_super hm h
    simp [HotKey.new, hnm]

/-- C9 witness: the theorem applied at SHIFT+META and SHIFT+SUPER. -/
theorem hotkey_new_meta_to_super_witness :
    (HotKey.new (some (Modifiers.SHIFT ||| Modifiers.META)) .KeyA none).mods
        = ((Modifiers.SHIFT ||| Modifiers.META)
            &&& (0xFFFFFFFF ^^^ Modifiers.META)) ||| Modifiers.SUPER
    ∧ HotKey.new (some (Modifiers.SHIFT ||| Modifiers.META)) .KeyA none
        = HotKey.new (some (Modifiers.SHIFT ||| Modifiers.SUPER)) .KeyA none := by
  refine ⟨?_, ?_⟩
  · exact (hotkey_new_meta_to_super (Modifiers.SHIFT ||| Modifiers.META)
      .KeyA none (by decide)).1 (by decide)
  · exact (hotkey_new_meta_to_super Modifiers.SHIFT .KeyA none
      (by decide)).2.2 (by decide)

/-- C8: `register_extrakeys` consumes the allocated id on every call (the
`u16` counter always advances, so the id returned by a following call is
never the one allocated by this call); on platform failure it returns
`RegistrationFailed` with the registry unchanged, on success it inserts the
new entry and returns the allocated id; `unregister` on platform failure
returns `UnregistrationFailed` with the whole manager state (in particular
the registry entry) left in place, and on success removes the entry. -/
theorem register_unregister_platform_failure_semantics
    (T : Type) (m : STManager T) (vk id : Nat)
    (mk : Option (List ModifiersKey)) (ek : Option (List Nat))
    (cb : Option T) (b : Bool) :
    (m.register_extrakeys false vk mk ek cb).manager.handlers = m.handlers
    ∧ (m.register_extrakeys false vk mk ek cb).result
        = .error .RegistrationFailed
    ∧ (m.register_extrakeys true vk mk ek cb).manager.handlers
        = assocInsert m.nextId ⟨cb, ek⟩ m.handlers
    ∧ (m.register_extrakeys true vk mk ek cb).result = .ok m.nextId
    ∧ (m.register_extrakeys b vk mk ek cb).manager.nextId
        = (m.nextId + 1) % 2 ^ 16
    ∧ (m.register_extrakeys b vk mk ek cb).manager.nextId ≠ m.nextId
    ∧ m.unregister false id = (m, .error .UnregistrationFailed)
    ∧ (m.unregister true id).1.handlers = assocErase id m.handlers
    ∧ (m.unregister true id).2 = .ok () := by
  refine ⟨rfl, rfl, rfl, rfl, ?_, ?_, rfl, rfl, rfl⟩
  · cases b <;> rfl
  · cases b <;> · show (m.nextId + 1) % 2 ^ 16 ≠ m.nextId; omega

/-- C10: registering through the cross-thread proxy with its default
no-repeat setting (`no_repeat = true`, appending the `NoRepeat`
pseudo-modifier and running the backend manager with `set_no_repeat false`)
passes exactly the same modifier bits to `RegisterHotKey` as registering on
a default single-threaded manager (`no_repeat = true`, OR-ing
`MOD_NOREPEAT` in directly), for every modifier list including `none`. -/
theorem proxy_and_single_thread_platform_bits_eq
    (T : Type) (createdHwnd vk : Nat) (ek : Option (List Nat)) (cb : Option T)
    (regOk : Bool) (mk : Option (List ModifiersKey)) :
    ((tsBackendNew T createdHwnd).register_extrakeys regOk vk
        (tsPushNoRepeat true mk) ek cb).platformBits
      = ((STManager.new T createdHwnd).register_extrakeys regOk vk
          mk ek cb).platformBits := by
  have core : registerModifierBits false (tsPushNoRepeat true mk)
      = registerModifierBits true mk := by
    cases mk with
    | none => decide
    | some l =>
      simp [registerModifierBits, tsPushNoRepeat, ModifiersKey.combine,
        List.foldl_append]
  cases regOk <;>
    simp [STManager.register_extrakeys, tsBackendNew, STManager.new,
      STManager.set_no_repeat, core]

/-- C7 counterexample: with the window-creation primitive failing (null
handle), `single_thread::HotkeyManager::new` does not fail — it returns a
fully constructed manager whose window handle is null
(`create_hidden_window().unwrap_or(DropHWND(null))`), so no construction
error is surfaced to the caller. -/
theorem st_manager_new_absorbs_window_failure :
    STManager.new Nat 0
      = { hwnd := 0, nextId := 0, handlers := [], noRepeat := true } := rfl

/-- C7 (amended): only `WinHotKeyManager::new` in src/manager.rs surfaces a
construction error (`OsError`) when window creation fails; the
single-threaded manager's constructor instead silently absorbs the failure
into a null window handle. -/
theorem manager_construction_error_surfacing :
    (STManager.new Nat 0).hwnd = 0
    ∧ WinHotKeyManager.new 0 = .error .OsError
    ∧ (∀ h : Nat, h ≠ 0 → WinHotKeyManager.new h = .ok { hwnd := h }) := by
  refine ⟨rfl, rfl, fun h hh => ?_⟩
  simp [WinHotKeyManager.new, hh]

/-- C7 witness: the amended theorem applied at a concrete window handle. -/
theorem manager_construction_error_surfacing_witness :
    (5 : Nat) ≠ 0 ∧ WinHotKeyManager.new 5 = .ok { hwnd := 5 } :=
  ⟨by decide, manager_construction_error_surfacing.2.2 5 (by decide)⟩

/-- C6: when a hotkey-fire message arrives whose id maps to a registry
entry with a callback and a non-empty extra-keys list, the callback runs
(returning its value) exactly when every extra key is reported pressed by
the instantaneous key-state query; if any extra key is not pressed, no
callback runs and the loop simply continues with the remaining messages. -/
theorem handle_hotkey_extra_keys_gate
    (T : Type) (m : STManager T) (ks : Nat → Bool) (wp : Nat)
    (rest : List WinMsg) (t : T) (keys : List Nat)
    (hlook : m.handlers.lookup (wp % 2 ^ 16) = some ⟨some t, some keys⟩)
    (hne : keys ≠ []) :
    ((∀ k ∈ keys, ks k = true) →
        m.handle_hotkey ks (.hotkey wp :: rest) = some (some t))
    ∧ ((∃ k ∈ keys, ks k = false) →
        m.handle_hotkey ks (.hotkey wp :: rest)
          = m.handle_hotkey ks rest) := by
  constructor
  · intro hall
    have hany : (keys.any fun vk => !ks vk) = false := by
      simp only [List.any_eq_false, Bool.not_eq_true]
      intro k hk
      simp [hall k hk]
    simp only [STManager.handle_hotkey]
    rw [hlook]
    simp [hany]
  · intro ⟨k, hk, hks⟩
    have hany : (keys.any fun vk => !ks vk) = true := by
      simp only [List.any_eq_true]
      exact ⟨k, hk, by simp [hks]⟩
    simp only [STManager.handle_hotkey]
    rw [hlook]
    simp [hany]

/-- C6 witness: a registry with one entry (id 5, callback value 7, extra
key 16): the callback runs when key 16 is down, and the event is dropped
(the loop moves on and blocks, here on an empty queue) when it is up. -/
theorem handle_hotkey_extra_keys_gate_witness :
    (([(5, ⟨some 7, some [16]⟩)] :
        List (Nat × HotkeyCallbackM Nat)).lookup (5 % 2 ^ 16)
      = some ⟨some 7, some [16]⟩)
    ∧ ({ hwnd := 1, nextId := 0, handlers := [(5, ⟨some 7, some [16]⟩)],
          noRepeat := true } : STManager Nat).handle_hotkey
        (fun k => k == 16) [.hotkey 5] = some (some 7)
    ∧ ({ hwnd := 1, nextId := 0, handlers := [(5, ⟨some 7, some [16]⟩)],
          noRepeat := true } : STManager Nat).handle_hotkey
        (fun _ => false) [.hotkey 5] = none := by
  refine ⟨by decide, ?_, ?_⟩
  · exact (handle_hotkey_extra_keys_gate Nat
      { hwnd := 1, nextId := 0, handlers := [(5, ⟨some 7, some [16]⟩)],
        noRepeat := true }
      (fun k => k == 16) 5 [] 7 [16] (by decide) (by decide)).1 (by decide)
  · exact (handle_hotkey_extra_keys_gate Nat
      { hwnd := 1, nextId := 0, handlers := [(5, ⟨some 7, some [16]⟩)],
        noRepeat := true }
      (fun _ => false) 5 [] 7 [16] (by decide) (by decide)).2
      ⟨16, by decide, by decide⟩

theorem parseLoopStep_empty (hp raw : Str) (st : ParseSt) (h : trim raw = []) :
    parseLoopStep hp st raw = .error (.EmptyToken hp) := by
  simp [parseLoopStep, h]

theorem parseLoopStep_key_found (hp raw : Str) (st : ParseSt) (k : Code)
    (hk : st.key = some k) (h : trim raw ≠ []) :
    parseLoopStep hp st raw = .error (.InvalidFormat hp) := by
  simp [parseLoopStep, h, hk]

theorem parseLoopStep_mod_exists (hp raw : Str) (st : ParseSt)
    (h : trim raw ≠ []) (hkey : st.key = none)
    (hmod : isModAliasU (asciiUpper (trim raw))) :
    ∃ mods, parseLoopStep hp st raw = .ok ⟨mods, none⟩ := by
  unfold parseLoopStep
  rw [if_neg h, hkey,
    if_neg (show ¬((none : Option Code).isSome = true) by simp)]
  rcases hmod with h' | h' | h' | h' | h' | h' | h' | h'
  · exact ⟨st.mods ||| Modifiers.ALT, by simp [h']⟩
  · exact ⟨st.mods ||| Modifiers.ALT, by simp [h']⟩
  · exact ⟨st.mods ||| Modifiers.CONTROL, by simp [h']⟩
  · exact ⟨st.mods ||| Modifiers.CONTROL, by simp [h']⟩
  · exact ⟨st.mods ||| Modifiers.SUPER, by simp [h']⟩
  · exact ⟨st.mods ||| Modifiers.SUPER, by simp [h']⟩
  · exact ⟨st.mods ||| Modifiers.SUPER, by simp [h']⟩
  · exact ⟨st.mods ||| Modifiers.SHIFT, by simp [h']⟩

theorem parseLoopStep_nonmod (hp raw : Str) (st : ParseSt) (k : Code)
    (h : trim raw ≠ []) (hkey : st.key = none)
    (hmod : ¬ isModAliasU (asciiUpper (trim raw)))
    (hpk : parse_key (trim raw) = .ok k) :
    parseLoopStep hp st raw = .ok ⟨st.mods, some k⟩ := by
  unfold parseLoopStep
  rw [if_neg h, hkey,
    if_neg (show ¬((none : Option Code).isSome = true) by simp)]
  unfold isModAliasU at hmod
  push_neg at hmod
  obtain ⟨h1, h2, h3, h4, h5, h6, h7, h8⟩ := hmod
  rw [if_neg (not_or.mpr ⟨h1, h2⟩), if_neg (not_or.mpr ⟨h3, h4⟩),
    if_neg (not_or.mpr ⟨h5, not_or.mpr ⟨h6, h7⟩⟩), if_neg h8]
  rw [hpk]
  rfl

theorem splitN2_no_sep (sep : Char) (s : Str) (hs : sep ∉ s) :
    splitN2 sep s = (s, none) := by
  induction s with
  | nil => rfl
  | cons c rest ih =>
    have hc : ¬(c = sep) := fun hc => hs (hc ▸ List.mem_cons_self c rest)
    rw [splitN2, if_neg hc, ih (fun hm => hs (List.mem_cons_of_mem c hm))]

theorem splitN2_at_sep (sep : Char) (name rest : Str) (hn : sep ∉ name) :
    splitN2 sep (name ++ sep :: rest) = (name, some rest) := by
  induction name with
  | nil => simp [splitN2]
  | cons c cs ih =>
    have hc : ¬(c = sep) := fun hc => hn (hc ▸ List.mem_cons_self c cs)
    rw [List.cons_append, splitN2, if_neg hc,
      ih (fun hm => hn (List.mem_cons_of_mem c hm))]

theorem dropWhile_gt_eq_self (l : Str) (hg : ∀ c ∈ l, c ≠ '>') :
    l.dropWhile (fun c => c = '>') = l := by
  cases l with
  | nil => rfl
  | cons c cs =>
    simp [List.dropWhile_cons, hg c (List.mem_cons_self c cs)]

theorem trimEndGt_no_gt (s : Str) (hg : ∀ c ∈ s, c ≠ '>') :
    trimEndGt s = s := by
  unfold trimEndGt
  rw [dropWhile_gt_eq_self s.reverse
    (fun c hc => hg c (List.mem_reverse.mp hc)), List.reverse_reverse]

theorem parse_hotkey_name_chord (name chord : Str)
    (hn : '<' ∉ name) (hg : ∀ c ∈ chord, c ≠ '>') :
    parse_hotkey (name ++ '<' :: chord)
      = parseTokens (trim name) chord (splitOnChar '+' chord) := by
  unfold parse_hotkey
  rw [splitN2_at_sep '<' name chord hn]
  simp only [Option.getD_some]
  rw [trimEndGt_no_gt chord hg]

theorem parseTokens_of_foldlM_error (np hp : Str) (toks : List Str)
    (hlen : 2 ≤ toks.length) (e : HotKeyParseError)
    (hfold : toks.foldlM (parseLoopStep hp) (⟨0, none⟩ : ParseSt)
      = .error e) :
    parseTokens np hp toks = .error e := by
  obtain ⟨a, b, l, rfl⟩ : ∃ a b l, toks = a :: b :: l := by
    rcases toks with _ | ⟨a, _ | ⟨b, l⟩⟩
    · simp at hlen
    · simp at hlen
    · exact ⟨a, b, l, rfl⟩
  simp only [parseTokens]
  rw [hfold]
  rfl

theorem foldlM_after_key (hp : Str) (toks : List Str) (k : Code) (mods : Nat)
    (hne : toks ≠ []) (htr : ∀ t ∈ toks, trim t ≠ []) :
    toks.foldlM (parseLoopStep hp) (⟨mods, some k⟩ : ParseSt)
      = .error (.InvalidFormat hp) := by
  cases toks with
  | nil => exact absurd rfl hne
  | cons t rest =>
    rw [List.foldlM_cons,
      parseLoopStep_key_found hp t ⟨mods, some k⟩ k rfl (htr t (by simp))]
    rfl

theorem foldlM_two_nonmod (hp : Str) (toks : List Str) :
    ∀ mods : Nat,
    (∀ t ∈ toks, trim t ≠ []) →
    2 ≤ toks.countP (fun t => !(decide (isModAliasU (asciiUpper (trim t))))) →
    (∀ t, toks.find? (fun t => !(decide (isModAliasU (asciiUpper (trim t)))))
        = some t → ∃ k, parse_key (trim t) = .ok k) →
    toks.foldlM (parseLoopStep hp) (⟨mods, none⟩ : ParseSt)
      = .error (.InvalidFormat hp) := by
  induction toks with
  | nil =>
    intro mods _ h2 _
    simp at h2
  | cons t rest ih =>
    intro mods htr h2 hres
    by_cases hmod : isModAliasU (asciiUpper (trim t))
    · obtain ⟨mods', hstep⟩ :=
        parseLoopStep_mod_exists hp t ⟨mods, none⟩ (htr t (by simp)) rfl hmod
      rw [List.foldlM_cons, hstep]
      show rest.foldlM (parseLoopStep hp) (⟨mods', none⟩ : ParseSt) = _
      apply ih mods'
      · intro t' ht'
        exact htr t' (by simp [ht'])
      · rw [List.countP_cons] at h2
        simpa [hmod] using h2
      · intro t' hfind
        apply hres
        rw [List.find?_cons_of_neg _ (by simp [hmod])]
        exact hfind
    · have hfind : (t :: rest).find?
          (fun t => !(decide (isModAliasU (asciiUpper (trim t))))) = some t :=
        List.find?_cons_of_pos _ (by simp [hmod])
      obtain ⟨k, hk⟩ := hres t hfind
      rw [List.foldlM_cons,
        parseLoopStep_nonmod hp t ⟨mods, none⟩ k (htr t (by simp)) rfl hmod hk]
      show rest.foldlM (parseLoopStep hp) (⟨mods, some k⟩ : ParseSt) = _
      apply foldlM_after_key
      · intro hrest
        subst hrest
        rw [List.countP_cons] at h2
        simp [hmod] at h2
      · intro t' ht'
        exact htr t' (by simp [ht'])

theorem foldlM_empty_token (hp : Str) (pre : List Str) :
    ∀ (mods : Nat) (e : Str) (post : List Str),
    (∀ t ∈ pre, trim t ≠ [] ∧ isModAliasU (asciiUpper (trim t))) →
    trim e = [] →
    (pre ++ e :: post).foldlM (parseLoopStep hp) (⟨mods, none⟩ : ParseSt)
      = .error (.EmptyToken hp) := by
  induction pre with
  | nil =>
    intro mods e post _ he
    rw [List.nil_append, List.foldlM_cons, parseLoopStep_empty hp e _ he]
    rfl
  | cons t pre' ih =>
    intro mods e post hpre he
    obtain ⟨mods', hstep⟩ := parseLoopStep_mod_exists hp t ⟨mods, none⟩
      (hpre t (by simp)).1 rfl (hpre t (by simp)).2
    rw [List.cons_append, List.foldlM_cons, hstep]
    show (pre' ++ e :: post).foldlM (parseLoopStep hp)
      (⟨mods', none⟩ : ParseSt) = _
    exact ih mods' e post (fun t' ht' => hpre t' (by simp [ht'])) he

theorem display_no_lt (k : Code) : '<' ∉ k.display := by
  cases k <;> decide

theorem not_mem_ite_nil (c : Char) (p : Prop) [Decidable p] (x : Str)
    (hx : c ∉ x) : c ∉ (if p then x else []) := by
  split
  · exact hx
  · simp

theorem into_string_no_lt (hk : HotKey) : '<' ∉ hk.into_string := by
  unfold HotKey.into_string
  intro hc
  rcases List.mem_append.mp hc with hc | hc
  · rcases List.mem_append.mp hc with hc | hc
    · rcases List.mem_append.mp hc with hc | hc
      · rcases List.mem_append.mp hc with hc | hc
        · exact not_mem_ite_nil '<' _ _ (by decide) hc
        · exact not_mem_ite_nil '<' _ _ (by decide) hc
      · exact not_mem_ite_nil '<' _ _ (by decide) hc
    · exact not_mem_ite_nil '<' _ _ (by decide) hc
  · exact display_no_lt hk.key hc

theorem parse_hotkey_no_lt (s : Str) (hs : '<' ∉ s) :
    parse_hotkey s = .error (.UnsupportedKey []) := by
  unfold parse_hotkey
  rw [splitN2_no_sep '<' s hs]
  rfl

/-- C2: the round-trip law fails for every descriptor — `into_string` never
emits a `<`, and `parse_hotkey` treats everything before the first `<` as a
name, leaving an empty chord, so re-parsing any encoded descriptor fails
with `UnsupportedKey ""` (contradicting the crate documentation in
src/hotkey.rs lines 14-23, which shows `"shift+alt+KeyQ".parse().unwrap()`).
At the concrete failing input `HotKey::new(None, Code::KeyQ, None)` the
encoded form is `"KeyQ"` and re-parsing it errs. -/
theorem roundtrip_parse_of_into_string_always_fails :
    (∀ hk : HotKey,
      parse_hotkey (HotKey.into_string hk) = .error (.UnsupportedKey []))
    ∧ HotKey.into_string (HotKey.new none .KeyQ none) = "KeyQ".data
    ∧ parse_hotkey "KeyQ".data = .error (.UnsupportedKey []) := by
  refine ⟨fun hk => parse_hotkey_no_lt _ (into_string_no_lt hk), by decide,
    by decide⟩

/-- C3 counterexample: the multi-token hotkey string `"n<win+a>"` contains
the token `win` (case-insensitively the alias WIN), yet `parse_hotkey`
rejects it as an unsupported key instead of classifying it as a modifier. -/
theorem parse_win_token_rejected :
    parse_hotkey "n<win+a>".data = .error (.UnsupportedKey "win".data) := by
  decide

/-- C3 (amended): in a multi-token hotkey string, a token whose uppercase
form is one of ALT, OPTION, CTRL, CONTROL, SHIFT, SUPER, CMD, COMMAND is
classified by the token loop of `parse_hotkey` as a modifier and ORs the
corresponding `Modifiers` bit into the set (`WIN` and `WINDOWS` are not
recognized by this parser — see the counterexample — they are aliases only
of `ModifiersKey::from_keyname`, which in turn lacks OPTION/CMD/COMMAND). -/
theorem parse_modifier_alias_classification
    (hp raw : Str) (st : ParseSt) (h : trim raw ≠ []) (hkey : st.key = none) :
    (asciiUpper (trim raw) = "ALT".data ∨ asciiUpper (trim raw) = "OPTION".data →
      parseLoopStep hp st raw = .ok ⟨st.mods ||| Modifiers.ALT, none⟩)
    ∧ (asciiUpper (trim raw) = "CTRL".data
        ∨ asciiUpper (trim raw) = "CONTROL".data →
      parseLoopStep hp st raw = .ok ⟨st.mods ||| Modifiers.CONTROL, none⟩)
    ∧ (asciiUpper (trim raw) = "SHIFT".data →
      parseLoopStep hp st raw = .ok ⟨st.mods ||| Modifiers.SHIFT, none⟩)
    ∧ (asciiUpper (trim raw) = "SUPER".data
        ∨ asciiUpper (trim raw) = "CMD".data
        ∨ asciiUpper (trim raw) = "COMMAND".data →
      parseLoopStep hp st raw = .ok ⟨st.mods ||| Modifiers.SUPER, none⟩) := by
  unfold parseLoopStep
  rw [if_neg h, hkey,
    if_neg (show ¬((none : Option Code).isSome = true) by simp)]
  refine ⟨?_, ?_, ?_, ?_⟩
  · rintro (h' | h') <;> simp [h']
  · rintro (h' | h') <;> simp [h']
  · intro h'
    simp [h']
  · rintro (h' | h' | h') <;> simp [h']

/-- C3 witness: the mixed-case token `cTrL` is classified as CONTROL. -/
theorem parse_modifier_alias_classification_witness :
    trim "cTrL".data ≠ []
    ∧ parseLoopStep [] ⟨0, none⟩ "cTrL".data
        = .ok ⟨0 ||| Modifiers.CONTROL, none⟩ :=
  ⟨by decide,
    (parse_modifier_alias_classification [] "cTrL".data ⟨0, none⟩
      (by decide) rfl).2.1 (Or.inl (by decide))⟩

/-- C4 counterexample: `"a+b"` has two tokens, neither a recognized
modifier name, but parsing fails with `UnsupportedKey ""` (the whole string
is taken as a name because it contains no `<`, leaving an empty chord), not
with `InvalidFormat`. -/
theorem parse_two_nonmod_without_angle :
    parse_hotkey "a+b".data = .error (.UnsupportedKey []) := by
  decide

/-- C4 (amended): for a hotkey string `name<chord>` whose chord part splits
on `+` into two or more tokens, none blank after trimming, at least two of
which are not recognized modifier aliases, and whose first non-modifier
token resolves to a supported key, `parse_hotkey` fails with
`InvalidFormat` — a second non-modifier token is never accepted. -/
theorem parse_second_primary_key_invalid_format
    (name chord : Str) (hn : '<' ∉ name) (hg : ∀ c ∈ chord, c ≠ '>')
    (htr : ∀ t ∈ splitOnChar '+' chord, trim t ≠ [])
    (h2 : 2 ≤ (splitOnChar '+' chord).countP
        (fun t => !(decide (isModAliasU (asciiUpper (trim t))))))
    (hres : ∀ t, (splitOnChar '+' chord).find?
        (fun t => !(decide (isModAliasU (asciiUpper (trim t))))) = some t →
        ∃ k, parse_key (trim t) = .ok k) :
    parse_hotkey (name ++ '<' :: chord) = .error (.InvalidFormat chord) := by
  rw [parse_hotkey_name_chord name chord hn hg]
  exact parseTokens_of_foldlM_error _ _ _
    (le_trans h2 (List.countP_le_length _)) _
    (foldlM_two_nonmod chord _ 0 htr h2 hres)

/-- C4 witness: the amended theorem applied to `"n<ctrl+a+b"`. -/
theorem parse_second_primary_key_invalid_format_witness :
    parse_hotkey ("n".data ++ '<' :: "ctrl+a+b".data)
      = .error (.InvalidFormat "ctrl+a+b".data) := by
  apply parse_second_primary_key_invalid_format
  · decide
  · decide
  · decide
  · decide
  · intro t ht
    exact ⟨.KeyA, by
      have hfind : (splitOnChar '+' "ctrl+a+b".data).find?
          (fun t => !(decide (isModAliasU (asciiUpper (trim t)))))
          = some "a".data := by decide
      rw [hfind] at ht
      cases ht
      decide⟩

/-- C5 counterexample: `"ctrl++b"` (the spec's own example) contains a
segment that is blank after trimming, but parsing fails with
`UnsupportedKey ""` — the whole string is taken as a name because it
contains no `<`, leaving an empty single-segment chord — not with
`EmptyToken`. -/
theorem parse_blank_segment_without_angle :
    parse_hotkey "ctrl++b".data = .error (.UnsupportedKey []) := by
  decide

/-- C5 (amended): for a hotkey string `name<chord>` whose chord part splits
on `+` into two or more segments, one of which is blank after trimming,
with every segment before the first blank one a recognized modifier alias,
`parse_hotkey` fails with `EmptyToken` carrying the chord part. -/
theorem parse_blank_token_empty_token_error
    (name chord : Str) (pre : List Str) (e : Str) (post : List Str)
    (hn : '<' ∉ name) (hg : ∀ c ∈ chord, c ≠ '>')
    (hsplit : splitOnChar '+' chord = pre ++ e :: post)
    (hlen : 2 ≤ (splitOnChar '+' chord).length)
    (hpre : ∀ t ∈ pre, trim t ≠ [] ∧ isModAliasU (asciiUpper (trim t)))
    (he : trim e = []) :
    parse_hotkey (name ++ '<' :: chord) = .error (.EmptyToken chord) := by
  rw [parse_hotkey_name_chord name chord hn hg]
  apply parseTokens_of_foldlM_error _ _ _ hlen
  rw [hsplit]
  exact foldlM_empty_token chord pre 0 e post hpre he

/-- C5 witness: the amended theorem applied to `"n<ctrl++b"`. -/
theorem parse_blank_token_empty_token_error_witness :
    parse_hotkey ("n".data ++ '<' :: "ctrl++b".data)
      = .error (.EmptyToken "ctrl++b".data) := by
  apply parse_blank_token_empty_token_error "n".data "ctrl++b".data
    ["ctrl".data] [] ["b".data]
  · decide
  · decide
  · decide
  · decide
  · decide
  · decide

end WinHotkey


